import Mathlib

/-!
Shallow embedding of the ScholarRAG query pipeline (`rag_pipeline/main.py`,
`config.py`) and proofs about its terminal behaviour.

External effects (HTTP search, embedding, vector retrieval, the language
model) are modelled by an oracle `Env` whose fields give the outcome of each
external call; `Except String α` models a Python call that either returns a
value or raises an exception whose `str` is the carried message.  The
orchestrator `process_query` is translated statement by statement from the
source; in addition to the Python return value it also reports a list of the
external calls it performed (`trace`) and which terminal branch it took
(`path`) — pure instrumentation of the control flow, not part of the Python
return value.
-/

namespace ScholarRAG

/-! ## Configuration constants (`config.py`) -/

def EMBEDDING_MODEL_NAME : String := "all-MiniLM-L6-v2"

def VECTOR_DB_SEARCH_NEIGHBORS : Nat := 4

def CHUNK_SIZE : Nat := 1000

def CHUNK_OVERLAP : Nat := 200

def SEMANTIC_SCHOLAR_API_URL : String := "https://api.semanticscholar.org/graph/v1/paper/search"

def MAX_SEARCH_RESULTS : Nat := 5

def SEARCH_RETRY_ATTEMPTS : Nat := 3

/-! ## Strings: Python `str.lower` and the substring test `in` -/

/-- Python `str.lower()` on ASCII text: lowercase every character. -/
def pyLower (s : String) : String := String.mk (s.data.map Char.toLower)

/-- Python `needle in hay` substring test. -/
def containsSub (hay needle : String) : Bool := decide (needle.data <:+: hay.data)

/-! ## Data model -/

/-- One raw JSON object of the search response `data` array: each of the
three fields may be missing (`none`) or present (`some`, possibly empty). -/
structure RawPaper where
  title : Option String
  abstract : Option String
  url : Option String
deriving DecidableEq

/-- A normalized paper record as produced by `search_semantic_scholar`. -/
structure Paper where
  title : String
  abstract : String
  url : String
deriving DecidableEq

/-- Normalization in `search_semantic_scholar`:
`{"title": p.get("title", "No title"), "abstract": p.get("abstract") or
"No abstract available.", "url": p.get("url", "No URL")}`.
Note `or` substitutes the sentinel for a missing or falsy (empty) abstract,
while the `.get` defaults apply only to missing keys. -/
def normalizePaper (p : RawPaper) : Paper :=
  { title := p.title.getD "No title"
    abstract :=
      match p.abstract with
      | some a => if a = "" then "No abstract available." else a
      | none => "No abstract available."
    url := p.url.getD "No URL" }

/-- A langchain `Document`: chunk text plus its `source` metadata URL. -/
structure Document where
  page_content : String
  source : String
deriving DecidableEq

/-- The `metrics` dictionary.  `response_time_ms` is `none` when the key has
not been inserted into the dictionary. -/
structure Metrics where
  sources_found : Nat
  docs_retrieved : Nat
  response_time_ms : Option Nat
  is_error : Bool
deriving DecidableEq

/-- The dictionary returned by `process_query`. -/
structure PipelineResult where
  answer : String
  sources : String
  metrics : Metrics
deriving DecidableEq

/-- External calls performed during a run. -/
inductive Effect where
  | searchHttp (query : String)
  | embed
  | retrieveCall (query : String)
  | llmCall (question : String)
deriving DecidableEq

/-- Which terminal branch of `process_query` produced the result. -/
inductive PathTag where
  | noCred
  | propagated
  | noPapers
  | caughtErr
  | noDocs
  | success
deriving DecidableEq

structure RunOutcome where
  result : Except String PipelineResult
  trace : List Effect
  path : PathTag

/-- Oracle for every external interaction of one pipeline run. -/
structure Env where
  /-- `os.getenv("GOOGLE_API_KEY")`: `none` when unset. -/
  google_api_key : Option String
  /-- Outcome of constructing `ChatGoogleGenerativeAI(...)`. -/
  llmInit : Except String Unit
  /-- Outcome of the HTTP GET of attempt `i` (0-based): the parsed `data`
  array on success, or the exception message on any network error, non-2xx
  status, timeout or JSON failure. -/
  searchAttempt : Nat → Except String (List RawPaper)
  /-- `RecursiveCharacterTextSplitter(...).split_text`. -/
  splitText : String → List String
  /-- Outcome of `HuggingFaceEmbeddings(...)` plus `Chroma.from_documents`. -/
  embedDocs : List Document → Except String Unit
  /-- Outcome of `retriever.invoke(query)` on a store holding the given docs
  with `search_kwargs={"k": k}`. -/
  retrieveDocs : List Document → String → Nat → Except String (List Document)
  /-- Outcome of `create_stuff_documents_chain(llm, prompt).invoke(...)`. -/
  synthesize : List Document → String → Except String String
  /-- `int((time.time() - start_time) * 1000)` at the moment it is taken. -/
  elapsedMs : Nat

/-- Python truthiness of `os.getenv("GOOGLE_API_KEY")`: falsy when the
variable is unset or the empty string. -/
def credentialConfigured (env : Env) : Bool :=
  match env.google_api_key with
  | none => false
  | some s => s != ""

/-! ## Query refiner (`_refine_search_query`) -/

def definitional_keywords : List String :=
  ["definition", "explanation", "key concepts", "introduction to",
   "principles of", "overview of", "what is"]

/-- `_refine_search_query` from `rag_pipeline/main.py`. -/
def _refine_search_query (query : String) : String :=
  if !(definitional_keywords.any (fun keyword => containsSub (pyLower query) keyword)) then
    "explanation and key concepts of " ++ query
  else
    query

/-! ## Paper search (`search_semantic_scholar`) -/

/-- The retry loop of `search_semantic_scholar`: `fuel` attempts remain and
the next attempt has index `i`.  A successful attempt returns the normalized
records; a failed attempt sleeps and continues; exhausting the attempts
returns `[]`.  Also returns one `searchHttp` effect per attempt made. -/
def searchLoop (env : Env) (q : String) : Nat → Nat → List Paper × List Effect
  | 0, _ => ([], [])
  | fuel + 1, i =>
    match env.searchAttempt i with
    | .ok data => (data.map normalizePaper, [.searchHttp q])
    | .error _ =>
      let rest := searchLoop env q fuel (i + 1)
      (rest.1, .searchHttp q :: rest.2)

/-- `search_semantic_scholar` from `rag_pipeline/main.py`. -/
def search_semantic_scholar (env : Env) (query : String) (api_key : String) :
    List Paper × List Effect :=
  searchLoop env query SEARCH_RETRY_ATTEMPTS 0

/-! ## Index construction (`build_vector_store`) -/

/-- The document list built by the `for paper in papers` loop of
`build_vector_store`: chunks of every abstract that is truthy and not the
sentinel, each tagged with its paper's URL. -/
def chunkDocs (env : Env) (papers : List Paper) : List Document :=
  (papers.map (fun paper =>
    if paper.abstract != "" && paper.abstract != "No abstract available." then
      (env.splitText paper.abstract).map
        (fun chunk => { page_content := chunk, source := paper.url })
    else [])).flatten

/-- `build_vector_store` from `rag_pipeline/main.py`.  The store is
represented by its document list; `.error` is a raised exception. -/
def build_vector_store (env : Env) (papers : List Paper) :
    Except String (List Document) × List Effect :=
  let docs := chunkDocs env papers
  if docs.isEmpty then
    (.error "No valid abstracts found in search results to build a knowledge base.", [])
  else
    match env.embedDocs docs with
    | .ok _ => (.ok docs, [.embed])
    | .error e => (.error e, [.embed])

/-! ## Orchestrator (`process_query`) -/

/-- The deduplicated source URLs of the retrieved documents:
`set(doc.metadata['source'] for doc in retrieved_docs)`. -/
def sourceUrls (docs : List Document) : List String :=
  (docs.map (fun doc => doc.source)).dedup

/-- `process_query` from `rag_pipeline/main.py`, translated branch by
branch.  `result` is the Python return value (`.error` = an uncaught
exception propagating to the caller); `trace` and `path` are
instrumentation. -/
def process_query (env : Env) (query : String) (api_key : String) : RunOutcome :=
  if !(credentialConfigured env) then
    { result := .ok
        { answer := "Error: GOOGLE_API_KEY is not configured."
          sources := ""
          metrics :=
            { sources_found := 0, docs_retrieved := 0, response_time_ms := none
              is_error := true } }
      trace := []
      path := .noCred }
  else
    match env.llmInit with
    | .error e => { result := .error e, trace := [], path := .propagated }
    | .ok _ =>
      let refined_query := _refine_search_query query
      let s := search_semantic_scholar env refined_query api_key
      let papers := s.1
      let metrics1 : Metrics :=
        { sources_found := papers.length, docs_retrieved := 0
          response_time_ms := none, is_error := false }
      if papers.isEmpty then
        { result := .ok
            { answer := "I could not find any relevant academic papers for this query."
              sources := ""
              metrics := metrics1 }
          trace := s.2
          path := .noPapers }
      else
        let bv := build_vector_store env papers
        match bv.1 with
        | .error e =>
          { result := .ok
              { answer := "An error occurred: " ++ e
                sources := ""
                metrics :=
                  { metrics1 with is_error := true
                                  response_time_ms := some env.elapsedMs } }
            trace := s.2 ++ bv.2
            path := .caughtErr }
        | .ok storeDocs =>
          match env.retrieveDocs storeDocs query VECTOR_DB_SEARCH_NEIGHBORS with
          | .error e =>
            { result := .ok
                { answer := "An error occurred: " ++ e
                  sources := ""
                  metrics :=
                    { metrics1 with is_error := true
                                    response_time_ms := some env.elapsedMs } }
              trace := s.2 ++ bv.2 ++ [.retrieveCall query]
              path := .caughtErr }
          | .ok retrieved_docs =>
            let metrics2 : Metrics := { metrics1 with docs_retrieved := retrieved_docs.length }
            if retrieved_docs.isEmpty then
              { result := .ok
                  { answer := "Could not find a specific answer in the retrieved papers."
                    sources := ""
                    metrics := metrics2 }
                trace := s.2 ++ bv.2 ++ [.retrieveCall query]
                path := .noDocs }
            else
              match env.synthesize retrieved_docs query with
              | .error e =>
                { result := .ok
                    { answer := "An error occurred: " ++ e
                      sources := ""
                      metrics :=
                        { metrics2 with is_error := true
                                        response_time_ms := some env.elapsedMs } }
                  trace := s.2 ++ bv.2 ++ [.retrieveCall query, .llmCall query]
                  path := .caughtErr }
              | .ok response =>
                { result := .ok
                    { answer := response
                      sources := String.intercalate "\n" (sourceUrls retrieved_docs)
                      metrics := { metrics2 with response_time_ms := some env.elapsedMs } }
                  trace := s.2 ++ bv.2 ++ [.retrieveCall query, .llmCall query]
                  path := .success }

/-! ## Concrete environments used by witnesses and counterexamples -/

/-- An environment whose search endpoint always fails. -/
def envAllFail : Env :=
  { google_api_key := some "g"
    llmInit := .ok ()
    searchAttempt := fun _ => .error "ReadTimeout"
    splitText := fun s => [s]
    embedDocs := fun _ => .ok ()
    retrieveDocs := fun _ _ _ => .ok []
    synthesize := fun _ _ => .ok ""
    elapsedMs := 0 }

/-- An environment in which `GOOGLE_API_KEY` is unset. -/
def envNoKey : Env :=
  { google_api_key := none
    llmInit := .ok ()
    searchAttempt := fun _ => .ok [{ title := some "T", abstract := some "A", url := some "u" }]
    splitText := fun s => [s]
    embedDocs := fun _ => .ok ()
    retrieveDocs := fun docs _ _ => .ok docs
    synthesize := fun _ _ => .ok "answer"
    elapsedMs := 5 }

/-- An environment for a fully successful run: one paper with a usable
abstract, retrieval returning the stored documents, synthesis succeeding. -/
def envOK : Env :=
  { google_api_key := some "g"
    llmInit := .ok ()
    searchAttempt := fun _ =>
      .ok [{ title := some "T1", abstract := some "Alpha beta.", url := some "http://u1" }]
    splitText := fun s => [s]
    embedDocs := fun _ => .ok ()
    retrieveDocs := fun docs _ _ => .ok docs
    synthesize := fun _ _ => .ok "A grounded answer."
    elapsedMs := 5 }

/-- The result of the successful run of `envOK`. -/
def rSuccessOK : PipelineResult :=
  { answer := "A grounded answer."
    sources := "http://u1"
    metrics :=
      { sources_found := 1, docs_retrieved := 1, response_time_ms := some 5
        is_error := false } }

/-- An environment whose language-model constructor raises. -/
def envLlmFail : Env := { envOK with llmInit := .error "DefaultCredentialsError" }

/-- An environment in which retrieval raises. -/
def envRetrFail : Env := { envOK with retrieveDocs := fun _ _ _ => .error "ChromaError" }

/-- An environment whose only search hit has no abstract. -/
def envB : Env :=
  { envOK with
    searchAttempt := fun _ =>
      .ok [{ title := none, abstract := none, url := some "http://u2" }]
    elapsedMs := 7 }

/-- An environment whose run retrieves three chunks drawn from two distinct
source URLs. -/
def envC8 : Env :=
  { google_api_key := some "g"
    llmInit := .ok ()
    searchAttempt := fun _ =>
      .ok [{ title := some "T1", abstract := some "A1", url := some "http://u1" },
           { title := some "T2", abstract := some "A2", url := some "http://u2" }]
    splitText := fun s => if s = "A1" then ["c1", "c2"] else [s]
    embedDocs := fun _ => .ok ()
    retrieveDocs := fun docs _ _ => .ok docs
    synthesize := fun _ _ => .ok "A grounded answer."
    elapsedMs := 5 }

/-- The three chunks retrieved in the `envC8` run: two share `http://u1`. -/
def retrievedC8 : List Document :=
  [{ page_content := "c1", source := "http://u1" },
   { page_content := "c2", source := "http://u1" },
   { page_content := "A2", source := "http://u2" }]

/-! ## Lemmas about the query refiner -/

theorem containsSub_iff (hay needle : String) :
    containsSub hay needle = true ↔ needle.data <:+: hay.data := by
  simp [containsSub]

theorem refine_of_trigger {q : String}
    (h : (definitional_keywords.any fun keyword => containsSub (pyLower q) keyword) = true) :
    _refine_search_query q = q := by
  simp [_refine_search_query, h]

theorem refine_of_no_trigger {q : String}
    (h : (definitional_keywords.any fun keyword => containsSub (pyLower q) keyword) = false) :
    _refine_search_query q = "explanation and key concepts of " ++ q := by
  simp [_refine_search_query, h]

/-- The output of the prefixing branch always contains the trigger phrase
`"explanation"` as a substring of its lowercasing. -/
theorem refined_contains_explanation (q : String) :
    containsSub (pyLower ("explanation and key concepts of " ++ q)) "explanation" = true := by
  rw [containsSub_iff]
  refine ⟨[], " and key concepts of ".data ++ q.data.map Char.toLower, ?_⟩
  show [] ++ "explanation".data ++ _
      = ((("explanation and key concepts of " ++ q).data).map Char.toLower)
  rw [String.data_append, List.map_append]
  have hP : "explanation and key concepts of ".data.map Char.toLower
      = "explanation".data ++ " and key concepts of ".data := by decide
  rw [hP]
  simp

theorem any_trigger_of_refined (q : String) :
    (definitional_keywords.any fun keyword =>
      containsSub (pyLower ("explanation and key concepts of " ++ q)) keyword) = true :=
  List.any_eq_true.mpr
    ⟨"explanation", by simp [definitional_keywords], refined_contains_explanation q⟩

/-- C4: a query that already contains a definitional trigger phrase
(case-insensitively) is returned unchanged; a query containing none of them
is returned with the fixed template prepended exactly once, so the original
query is a strict suffix of the output. -/
theorem C4_refiner_cases (q : String) :
    ((∃ kw ∈ definitional_keywords, kw.data <:+: (pyLower q).data) →
      _refine_search_query q = q) ∧
    ((¬ ∃ kw ∈ definitional_keywords, kw.data <:+: (pyLower q).data) →
      (_refine_search_query q = "explanation and key concepts of " ++ q ∧
       q.data <:+ (_refine_search_query q).data ∧
       _refine_search_query q ≠ q)) := by
  constructor
  · intro h
    apply refine_of_trigger
    rcases h with ⟨kw, hmem, hsub⟩
    exact List.any_eq_true.mpr ⟨kw, hmem, (containsSub_iff _ _).mpr hsub⟩
  · intro h
    have hf : (definitional_keywords.any fun keyword =>
        containsSub (pyLower q) keyword) = false := by
      rw [Bool.eq_false_iff]
      intro hany
      rcases List.any_eq_true.mp hany with ⟨kw, hmem, hsub⟩
      exact h ⟨kw, hmem, (containsSub_iff _ _).mp hsub⟩
    have heq := refine_of_no_trigger hf
    refine ⟨heq, ?_, ?_⟩
    · rw [heq]
      exact ⟨"explanation and key concepts of ".data, (String.data_append _ _).symm⟩
    · rw [heq]
      intro hcontra
      have hlen := congrArg (fun s => s.data.length) hcontra
      simp [String.data_append] at hlen
      omega

/-- C4 witness: concrete instances of both branches of the refiner. -/
theorem C4_witness :
    (_refine_search_query "What is retrieval augmented generation" =
      "What is retrieval augmented generation") ∧
    (_refine_search_query "transformers" =
      "explanation and key concepts of transformers") := by
  constructor
  · exact (C4_refiner_cases "What is retrieval augmented generation").1
      ⟨"what is", by simp [definitional_keywords], by decide⟩
  · exact ((C4_refiner_cases "transformers").2 (by decide)).1

/-- C5: the refiner is idempotent on every input, because its prefixing
branch always emits a string containing the trigger phrase
`"explanation"`. -/
theorem C5_refiner_idempotent (q : String) :
    _refine_search_query (_refine_search_query q) = _refine_search_query q := by
  cases htrig : (definitional_keywords.any fun keyword =>
      containsSub (pyLower q) keyword) with
  | true => rw [refine_of_trigger htrig, refine_of_trigger htrig]
  | false =>
    rw [refine_of_no_trigger htrig, refine_of_trigger (any_trigger_of_refined q)]

/-! ## Lemmas about the paper search client -/

/-- If every attempt the loop can still make fails, the loop returns the
empty list. -/
theorem searchLoop_all_fail (env : Env) (q : String) :
    ∀ fuel i, (∀ j, i ≤ j → j < i + fuel → ∃ e, env.searchAttempt j = .error e) →
      (searchLoop env q fuel i).1 = [] := by
  intro fuel
  induction fuel with
  | zero => intro i _; rfl
  | succ n ih =>
    intro i h
    rw [searchLoop]
    cases hj : env.searchAttempt i with
    | ok data =>
      obtain ⟨e, he⟩ := h i le_rfl (by omega)
      rw [hj] at he
      cases he
    | error e =>
      simpa using ih (i + 1) (fun j h1 h2 => h j (by omega) (by omega))

/-- C6: when all `SEARCH_RETRY_ATTEMPTS` attempts fail, the search client
returns the empty sequence (and, structurally in this embedding, raises
nothing: every attempt's exception is consumed by the loop). -/
theorem C6_search_degrades_to_empty (env : Env) (q k : String)
    (h : ∀ j, j < SEARCH_RETRY_ATTEMPTS → ∃ e, env.searchAttempt j = .error e) :
    (search_semantic_scholar env q k).1 = [] := by
  apply searchLoop_all_fail
  intro j h1 h2
  exact h j (by simpa using h2)

/-- C6 witness: with every attempt failing, the concrete search returns `[]`. -/
theorem C6_witness : (search_semantic_scholar envAllFail "q" "k").1 = [] :=
  C6_search_degrades_to_empty envAllFail "q" "k" (fun _ _ => ⟨"ReadTimeout", rfl⟩)


/-- C7: with the credential missing, `process_query` returns the error
result immediately — `is_error = true`, no `response_time_ms` key, and an
empty trace of external calls (no search, no indexing, no model call). -/
theorem C7_missing_credential (env : Env) (q k : String)
    (h : credentialConfigured env = false) :
    process_query env q k =
      { result := .ok
          { answer := "Error: GOOGLE_API_KEY is not configured."
            sources := ""
            metrics :=
              { sources_found := 0, docs_retrieved := 0, response_time_ms := none
                is_error := true } }
        trace := []
        path := .noCred } := by
  simp [process_query, h]

/-- C7 witness: the concrete credential-free environment returns the error
result with an empty trace. -/
theorem C7_witness :
    process_query envNoKey "what drives aging" "sskey" =
      { result := .ok
          { answer := "Error: GOOGLE_API_KEY is not configured."
            sources := ""
            metrics :=
              { sources_found := 0, docs_retrieved := 0, response_time_ms := none
                is_error := true } }
        trace := []
        path := .noCred } :=
  C7_missing_credential envNoKey "what drives aging" "sskey" rfl

/-! ## Terminal-path characterizations of the orchestrator -/

/-- On every returned (non-propagated) result, `is_error` is set exactly on
the missing-credential and caught-exception branches, and the
`response_time_ms` key is present exactly on the caught-exception and
success branches. -/
theorem processQuery_flags (env : Env) (q k : String) :
    ∀ r, (process_query env q k).result = .ok r →
      ((r.metrics.is_error = true ↔
         ((process_query env q k).path = .noCred ∨
          (process_query env q k).path = .caughtErr)) ∧
       ((r.metrics.response_time_ms).isSome = true ↔
         ((process_query env q k).path = .caughtErr ∨
          (process_query env q k).path = .success))) := by
  simp only [process_query]
  split
  · intro r h
    cases h
    simp
  · split
    · intro r h
      cases h
    · split
      · intro r h
        cases h
        simp
      · split
        · intro r h
          cases h
          simp
        · split
          · intro r h
            cases h
            simp
          · split
            · intro r h
              cases h
              simp
            · split
              · intro r h
                cases h
                simp
              · intro r h
                cases h
                simp

/-- Characterization of propagation: `process_query` returns by raising an
exception precisely when the credential is configured and the language-model
client constructor raises — that construction happens outside the
`try` block. -/
theorem processQuery_propagates_iff (env : Env) (q k : String) (e : String) :
    (process_query env q k).result = .error e ↔
      (credentialConfigured env = true ∧ env.llmInit = .error e) := by
  simp only [process_query]
  split
  · rename_i hc
    simp only [Bool.not_eq_eq_eq_not, Bool.not_true] at hc
    constructor
    · intro h
      cases h
    · rintro ⟨h1, _⟩
      rw [h1] at hc
      cases hc
  · rename_i hc
    simp only [Bool.not_eq_eq_eq_not, Bool.not_true, Bool.not_eq_false] at hc
    split
    · rename_i e' hllm
      constructor
      · intro h
        cases h
        exact ⟨hc, hllm⟩
      · rintro ⟨_, h2⟩
        rw [hllm] at h2
        cases h2
        rfl
    · rename_i u hllm
      constructor
      · intro h
        split at h
        · cases h
        · split at h
          · cases h
          · split at h
            · cases h
            · split at h
              · cases h
              · split at h
                · cases h
                · cases h
      · rintro ⟨_, h2⟩
        rw [hllm] at h2
        cases h2

/-! ## Claim theorems about terminal metrics and propagation -/



/-- C1 (amended): every terminal result carries `sources_found`,
`docs_retrieved` and `is_error` (structural in `Metrics`), but the
`response_time_ms` key is present exactly on the caught-exception and
success terminals; the missing-credential, no-papers and no-docs terminals
return metrics without it. -/
theorem C1_response_time_presence (env : Env) (q k : String) (r : PipelineResult)
    (h : (process_query env q k).result = .ok r) :
    ((r.metrics.response_time_ms).isSome = true ↔
      ((process_query env q k).path = .caughtErr ∨
       (process_query env q k).path = .success)) :=
  ((processQuery_flags env q k) r h).2

/-- C1 witness: the success terminal of `envOK` has `response_time_ms`. -/
theorem C1_witness :
    (rSuccessOK.metrics.response_time_ms.isSome = true ↔
      ((process_query envOK "transformer models" "k").path = .caughtErr ∨
       (process_query envOK "transformer models" "k").path = .success)) :=
  C1_response_time_presence envOK "transformer models" "k" rSuccessOK rfl

/-- C1 counterexample: the missing-credential terminal returns metrics with
no `response_time_ms` entry, refuting the claim that every terminal path
returns a fully populated MetricsRecord. -/
theorem C1_counterexample :
    (process_query envNoKey "q1" "k").result =
      .ok { answer := "Error: GOOGLE_API_KEY is not configured."
            sources := ""
            metrics :=
              { sources_found := 0, docs_retrieved := 0, response_time_ms := none
                is_error := true } } := rfl

/-- C3 (amended): every exception raised inside the `try` block is caught
and returned as a result; an exception propagates to the caller precisely
when the credential check passes and the language-model client constructor
(which runs before the `try` block) raises. -/
theorem C3_propagation_characterization (env : Env) (q k : String) (e : String) :
    (process_query env q k).result = .error e ↔
      (credentialConfigured env = true ∧ env.llmInit = .error e) :=
  processQuery_propagates_iff env q k e


/-- C3 counterexample: with the constructor raising, `process_query`
propagates the exception instead of returning a PipelineResult. -/
theorem C3_counterexample :
    (process_query envLlmFail "q3" "k").result = .error "DefaultCredentialsError" := rfl


/-- C10: among returned results, `is_error` is true exactly on the
missing-credential and caught-exception terminals; the no-papers, no-docs
and success terminals report `is_error = false`. -/
theorem C10_is_error_characterization (env : Env) (q k : String) (r : PipelineResult)
    (h : (process_query env q k).result = .ok r) :
    (r.metrics.is_error = true ↔
      ((process_query env q k).path = .noCred ∨
       (process_query env q k).path = .caughtErr)) :=
  ((processQuery_flags env q k) r h).1

/-- C10 witness: a run whose retrieval raises ends on the caught-exception
terminal with `is_error = true`. -/
theorem C10_witness :
    (({ answer := "An error occurred: ChromaError"
        sources := ""
        metrics :=
          { sources_found := 1, docs_retrieved := 0, response_time_ms := some 5
            is_error := true } } : PipelineResult).metrics.is_error = true ↔
      ((process_query envRetrFail "q10" "k").path = .noCred ∨
       (process_query envRetrFail "q10" "k").path = .caughtErr)) :=
  C10_is_error_characterization envRetrFail "q10" "k" _ rfl

/-! ## The content-insufficiency terminal (claim C2) -/

/-- A successful first attempt determines the search result. -/
theorem searchLoop_first_ok (env : Env) (q : String) (fuel i : Nat)
    (data : List RawPaper) (h : env.searchAttempt i = .ok data) :
    searchLoop env q (fuel + 1) i = (data.map normalizePaper, [.searchHttp q]) := by
  rw [searchLoop, h]

/-- When every normalized paper carries the sentinel abstract, the chunk set
is empty. -/
theorem chunkDocs_nil_of_sentinel (env : Env) (raws : List RawPaper)
    (habs : ∀ p ∈ raws, (normalizePaper p).abstract = "No abstract available.") :
    chunkDocs env (raws.map normalizePaper) = [] := by
  unfold chunkDocs
  rw [List.flatten_eq_nil_iff]
  intro l hl
  rcases List.mem_map.mp hl with ⟨paper, hp, rfl⟩
  rcases List.mem_map.mp hp with ⟨rp, hrp, rfl⟩
  simp [habs rp hrp]

/-- C2 (amended): when search succeeds but every returned paper lacks a
usable abstract, `process_query` returns through the generic exception
handler: the message is the index builder's "no valid abstracts" message
(distinct from the no-papers message) and the metrics show
`sources_found > 0` and `docs_retrieved = 0` — but `is_error = true`, so by
the flag alone this terminal is not distinguishable from a crash. -/
theorem C2_no_usable_abstracts (env : Env) (q k : String) (raws : List RawPaper)
    (hcred : credentialConfigured env = true)
    (hllm : env.llmInit = .ok ())
    (hs0 : env.searchAttempt 0 = .ok raws)
    (hne : raws ≠ [])
    (habs : ∀ p ∈ raws, (normalizePaper p).abstract = "No abstract available.") :
    ((process_query env q k).result = .ok
      { answer := "An error occurred: No valid abstracts found in search results to build a knowledge base."
        sources := ""
        metrics :=
          { sources_found := raws.length, docs_retrieved := 0
            response_time_ms := some env.elapsedMs, is_error := true } } ∧
     "An error occurred: No valid abstracts found in search results to build a knowledge base."
       ≠ "I could not find any relevant academic papers for this query." ∧
     0 < raws.length) := by
  refine ⟨?_, by decide, List.length_pos.mpr hne⟩
  have hsearch1 : search_semantic_scholar env (_refine_search_query q) k
      = (raws.map normalizePaper, [.searchHttp (_refine_search_query q)]) :=
    searchLoop_first_ok env (_refine_search_query q) 2 0 raws hs0
  have hchunk := chunkDocs_nil_of_sentinel env raws habs
  have hbuild : build_vector_store env (raws.map normalizePaper) =
      (.error "No valid abstracts found in search results to build a knowledge base.", []) := by
    simp only [build_vector_store, hchunk]
    rfl
  have hmapne : raws.map normalizePaper ≠ [] := by
    simpa using hne
  simp only [process_query, hcred, Bool.not_true, hllm, hsearch1, hbuild,
    List.isEmpty_eq_false.mpr hmapne, List.length_map]
  rfl


/-- C2 counterexample: on the all-abstracts-missing run the terminal result
carries `is_error = true` — it reaches the caller through the same error
path as a crash, refuting the claimed non-crash outcome. -/
theorem C2_counterexample :
    (process_query envB "qb" "k").result = .ok
      { answer := "An error occurred: No valid abstracts found in search results to build a knowledge base."
        sources := ""
        metrics :=
          { sources_found := 1, docs_retrieved := 0, response_time_ms := some 7
            is_error := true } } := rfl

/-- C2 witness: the amended claim instantiated on the concrete
abstract-free environment. -/
theorem C2_witness :
    ((process_query envB "qb2" "k").result = .ok
      { answer := "An error occurred: No valid abstracts found in search results to build a knowledge base."
        sources := ""
        metrics :=
          { sources_found := 1, docs_retrieved := 0, response_time_ms := some 7
            is_error := true } } ∧
     "An error occurred: No valid abstracts found in search results to build a knowledge base."
       ≠ "I could not find any relevant academic papers for this query." ∧
     (0 : Nat) < 1) :=
  C2_no_usable_abstracts envB "qb2" "k"
    [{ title := none, abstract := none, url := some "http://u2" }]
    rfl rfl rfl (by decide) (by decide)

/-! ## Success-path sources (claim C8) -/

/-- C8: on the success path the result's `sources` string is the
newline-join of the deduplicated source URLs of the retrieved chunks, and
the number of entries equals the number of distinct URLs among the
retrieved chunks, however many chunks share a URL. -/
theorem C8_sources_deduplicated (env : Env) (q k : String) (raws : List RawPaper)
    (retrieved : List Document) (resp : String)
    (hcred : credentialConfigured env = true)
    (hllm : env.llmInit = .ok ())
    (hs0 : env.searchAttempt 0 = .ok raws)
    (hne : raws ≠ [])
    (hch : chunkDocs env (raws.map normalizePaper) ≠ [])
    (hembed : env.embedDocs (chunkDocs env (raws.map normalizePaper)) = .ok ())
    (hret : env.retrieveDocs (chunkDocs env (raws.map normalizePaper)) q
        VECTOR_DB_SEARCH_NEIGHBORS = .ok retrieved)
    (hrne : retrieved ≠ [])
    (hsynth : env.synthesize retrieved q = .ok resp) :
    ((process_query env q k).result = .ok
      { answer := resp
        sources := String.intercalate "\n" (sourceUrls retrieved)
        metrics :=
          { sources_found := raws.length, docs_retrieved := retrieved.length
            response_time_ms := some env.elapsedMs, is_error := false } } ∧
     (sourceUrls retrieved).length
       = ((retrieved.map (fun doc => doc.source)).toFinset).card) := by
  refine ⟨?_, (List.card_toFinset _).symm⟩
  have hsearch1 : search_semantic_scholar env (_refine_search_query q) k
      = (raws.map normalizePaper, [.searchHttp (_refine_search_query q)]) :=
    searchLoop_first_ok env (_refine_search_query q) 2 0 raws hs0
  have hbuild : build_vector_store env (raws.map normalizePaper) =
      (.ok (chunkDocs env (raws.map normalizePaper)), [.embed]) := by
    simp only [build_vector_store, List.isEmpty_eq_false.mpr hch, hembed]
    rfl
  have hmapne : raws.map normalizePaper ≠ [] := by
    simpa using hne
  simp only [process_query, hcred, Bool.not_true, hllm, hsearch1, hbuild,
    List.isEmpty_eq_false.mpr hmapne, List.isEmpty_eq_false.mpr hrne, hret, hsynth,
    List.length_map]
  rfl



/-- C8 witness: three retrieved chunks over two distinct URLs give a
`sources` set with exactly two entries. -/
theorem C8_witness :
    (((process_query envC8 "qc" "k").result = .ok
      { answer := "A grounded answer."
        sources := String.intercalate "\n" (sourceUrls retrievedC8)
        metrics :=
          { sources_found := 2, docs_retrieved := 3, response_time_ms := some 5
            is_error := false } } ∧
     (sourceUrls retrievedC8).length
       = ((retrievedC8.map (fun doc => doc.source)).toFinset).card) ∧
     (sourceUrls retrievedC8).length = 2) :=
  ⟨C8_sources_deduplicated envC8 "qc" "k"
      [{ title := some "T1", abstract := some "A1", url := some "http://u1" },
       { title := some "T2", abstract := some "A2", url := some "http://u2" }]
      retrievedC8 "A grounded answer."
      rfl rfl rfl (by decide) (by decide) rfl rfl (by decide) rfl,
   by decide⟩

/-! ## Query routing (claim C9) -/

/-- Every effect emitted by the search loop is an HTTP search with the
query the loop was given. -/
theorem searchLoop_trace (env : Env) (q : String) :
    ∀ fuel i, ∀ e ∈ (searchLoop env q fuel i).2, e = Effect.searchHttp q := by
  intro fuel
  induction fuel with
  | zero =>
    intro i e he
    simp [searchLoop] at he
  | succ n ih =>
    intro i e he
    rw [searchLoop] at he
    cases hj : env.searchAttempt i with
    | ok data =>
      rw [hj] at he
      simp at he
      exact he
    | error er =>
      rw [hj] at he
      simp at he
      rcases he with h1 | h2
      · exact h1
      · exact ih (i + 1) e h2

/-- The index builder emits at most the embedding effect. -/
theorem buildVectorStore_trace (env : Env) (papers : List Paper) :
    ∀ e ∈ (build_vector_store env papers).2, e = Effect.embed := by
  intro e he
  simp only [build_vector_store] at he
  split at he
  · simp at he
  · split at he <;> simp at he <;> exact he

/-- Every external call of a run is one of: a search with the refined
query, the embedding step, a retrieval with the original query, or a model
call with the original query as the question. -/
theorem processQuery_trace_shape (env : Env) (q k : String) :
    ∀ e ∈ (process_query env q k).trace,
      (e = Effect.searchHttp (_refine_search_query q) ∨ e = Effect.embed ∨
       e = Effect.retrieveCall q ∨ e = Effect.llmCall q) := by
  simp only [process_query]
  split
  · intro e he
    simp at he
  · split
    · intro e he
      simp at he
    · split
      · intro e he
        exact Or.inl (searchLoop_trace env (_refine_search_query q) SEARCH_RETRY_ATTEMPTS 0 e he)
      · split
        · intro e he
          rcases List.mem_append.mp he with h | h
          · exact Or.inl (searchLoop_trace env (_refine_search_query q) SEARCH_RETRY_ATTEMPTS 0 e h)
          · exact Or.inr (Or.inl (buildVectorStore_trace env _ e h))
        · split
          · intro e he
            rcases List.mem_append.mp he with h | h
            · rcases List.mem_append.mp h with h' | h'
              · exact Or.inl (searchLoop_trace env (_refine_search_query q) SEARCH_RETRY_ATTEMPTS 0 e h')
              · exact Or.inr (Or.inl (buildVectorStore_trace env _ e h'))
            · simp at h
              exact Or.inr (Or.inr (Or.inl h))
          · split
            · intro e he
              rcases List.mem_append.mp he with h | h
              · rcases List.mem_append.mp h with h' | h'
                · exact Or.inl (searchLoop_trace env (_refine_search_query q) SEARCH_RETRY_ATTEMPTS 0 e h')
                · exact Or.inr (Or.inl (buildVectorStore_trace env _ e h'))
              · simp at h
                exact Or.inr (Or.inr (Or.inl h))
            · split
              · intro e he
                rcases List.mem_append.mp he with h | h
                · rcases List.mem_append.mp h with h' | h'
                  · exact Or.inl (searchLoop_trace env (_refine_search_query q) SEARCH_RETRY_ATTEMPTS 0 e h')
                  · exact Or.inr (Or.inl (buildVectorStore_trace env _ e h'))
                · simp at h
                  rcases h with h1 | h2
                  · exact Or.inr (Or.inr (Or.inl h1))
                  · exact Or.inr (Or.inr (Or.inr h2))
              · intro e he
                rcases List.mem_append.mp he with h | h
                · rcases List.mem_append.mp h with h' | h'
                  · exact Or.inl (searchLoop_trace env (_refine_search_query q) SEARCH_RETRY_ATTEMPTS 0 e h')
                  · exact Or.inr (Or.inl (buildVectorStore_trace env _ e h'))
                · simp at h
                  rcases h with h1 | h2
                  · exact Or.inr (Or.inr (Or.inl h1))
                  · exact Or.inr (Or.inr (Or.inr h2))

/-- C9: in every invocation, any external search call uses the refined
query, while any retrieval call and any model call use the original user
query unchanged. -/
theorem C9_query_routing (env : Env) (q k : String) :
    ((∀ s, Effect.searchHttp s ∈ (process_query env q k).trace →
        s = _refine_search_query q) ∧
     (∀ s, Effect.retrieveCall s ∈ (process_query env q k).trace → s = q) ∧
     (∀ s, Effect.llmCall s ∈ (process_query env q k).trace → s = q)) := by
  refine ⟨?_, ?_, ?_⟩ <;> intro s hs <;>
    rcases processQuery_trace_shape env q k _ hs with h | h | h | h <;>
      cases h <;> rfl

/-- C9 witness: on the concrete successful run, the recorded search call
carries the refined query and the retrieval and model calls carry the
original query. -/
theorem C9_witness :
    (("explanation and key concepts of transformer models"
        = _refine_search_query "transformer models") ∧
     ("transformer models" = "transformer models") ∧
     ("transformer models" = "transformer models")) :=
  ⟨(C9_query_routing envOK "transformer models" "k").1
      "explanation and key concepts of transformer models" (by decide),
   (C9_query_routing envOK "transformer models" "k").2.1
      "transformer models" (by decide),
   (C9_query_routing envOK "transformer models" "k").2.2
      "transformer models" (by decide)⟩

end ScholarRAG
